import Mathlib

/-!
Shallow embedding of `src/libs/streamlink/logger.py` (the leveled logging core
of TVLINK): the severity-level registry, the `StreamlinkLogger.iter` batch
logging generator, the `StringFormatter` record renderer, the `StreamHandler`
flush behaviour, the warning bridge (`WarningLogRecord`, `_log_record_factory`,
`capturewarnings`) and the `basicConfig` output configurator.

Python strings are modelled as Lean `String` (a list of characters); Python
`dict` literals as association lists in insertion order (CPython dicts preserve
insertion order); mutable global state (the root logger's handler list, the
`warnings.showwarning` hook and the saved `_showwarning_default`) as explicit
state records threaded through the functions that mutate them.
-/

set_option autoImplicit false

namespace StreamlinkLogging

/-! ### Python string primitives used by the source -/

/-- Python `str.lower` restricted to the ASCII range, which is all the source
applies it to (level names such as `"DEBUG"`). -/
def pyLower (s : String) : String :=
  ⟨s.data.map Char.toLower⟩

/-- Fuel-driven worker for `pyRemoveAll`: scans left to right and removes each
non-overlapping occurrence of `pat`, exactly like CPython's
`str.replace(pat, "")`.  The fuel starts at the string length, which suffices
because every step consumes at least one character when `pat` is nonempty. -/
def removeOccGo (pat : List Char) : Nat → List Char → List Char
  | _, [] => []
  | 0, s => s
  | fuel + 1, c :: rest =>
    if pat.isPrefixOf (c :: rest) then
      removeOccGo pat fuel ((c :: rest).drop pat.length)
    else
      c :: removeOccGo pat fuel rest

/-- Python `s.replace(pat, "")`: remove every non-overlapping occurrence of
`pat` from `s`, scanning left to right (used with the nonempty pattern
`f"{rbase}."` in `StringFormatter.format`). -/
def pyRemoveAll (pat s : String) : String :=
  ⟨removeOccGo pat.data s.data.length s.data⟩

/-! ### Level registry

`NONE = sys.maxsize` is platform dependent (2^31 - 1 on 32-bit builds such as
armv7, 2^63 - 1 on 64-bit builds); Python guarantees `sys.maxsize >= 2^31 - 1`
on every platform, so the registry is parameterised by that value. -/

def CRITICAL : Nat := 50
def ERROR : Nat := 40
def WARNING : Nat := 30
def INFO : Nat := 20
def DEBUG : Nat := 10

/-- `NONE = sys.maxsize`. -/
def NONE (maxsize : Nat) : Nat := maxsize

/-- `TRACE = 5`. -/
def TRACE : Nat := 5

/-- `ALL = 2`. -/
def ALL : Nat := 2

/-- The `_levelToNames` dict, as an association list in insertion order
(CPython dicts iterate in insertion order; all eight keys are distinct). -/
def levelToNames (maxsize : Nat) : List (Nat × String) :=
  [ (NONE maxsize, "none"),
    (CRITICAL, "critical"),
    (ERROR, "error"),
    (WARNING, "warning"),
    (INFO, "info"),
    (DEBUG, "debug"),
    (TRACE, "trace"),
    (ALL, "all") ]

/-- `levels = list(_levelToNames.values())`. -/
def levels (maxsize : Nat) : List String :=
  (levelToNames maxsize).map Prod.snd

/-! ### `StreamlinkLogger.iter`

The generator first evaluates `self.isEnabledFor(level)` (exactly once).  If
the logger is not enabled it runs `yield from messages`, which exhausts the
`messages` iterator; the `for message in messages` loop that follows then sees
an already-exhausted iterator and iterates zero times.  If the logger is
enabled, the `yield from` is skipped and the loop consumes the whole iterator,
calling `self._log(level, message, args, **kwargs)` before yielding each item.
The model makes the iterator consumption explicit via `remaining`. -/

/-- Result of running the `iter` generator to completion on a finite input
iterator: the items yielded in order, the `(level, message)` pairs passed to
`self._log` in order, and how many times `isEnabledFor` was evaluated. -/
structure IterRun (α : Type) where
  yielded : List α
  records : List (Nat × α)
  enabledChecks : Nat
  deriving DecidableEq, Repr

/-- `StreamlinkLogger.iter(level, messages)`, with the logger's level filter
abstracted as the predicate `isEnabledFor`. -/
def StreamlinkLogger.iter {α : Type} (isEnabledFor : Nat → Bool) (level : Nat)
    (messages : List α) : IterRun α :=
  let enabled := isEnabledFor level
  let preYield := if ¬ enabled then messages else []
  let remaining := if ¬ enabled then [] else messages
  { yielded := preYield ++ remaining,
    records := remaining.map (fun m => (level, m)),
    enabledChecks := 1 }

/-! ### Log records and `StringFormatter` -/

/-- The fields of a `logging.LogRecord` that `StringFormatter.format` reads or
writes: the logger `name`, the `levelname`, and the message text that the
default template `"[{name}][{levelname}] {message}"` interpolates. -/
structure LogRecord where
  name : String
  levelname : String
  message : String
  deriving DecidableEq, Repr

/-- `FORMAT_BASE = "[{name}][{levelname}] {message}"`. -/
def FORMAT_BASE : String := "[{name}][{levelname}] {message}"

/-- `FORMAT_DATE = "%H:%M:%S"`. -/
def FORMAT_DATE : String := "%H:%M:%S"

/-- `REMOVE_BASE = ["streamlink", "streamlink_cli"]`. -/
def REMOVE_BASE : List String := ["streamlink", "streamlink_cli"]

/-- The record mutation performed by `StringFormatter.format` before it
delegates to `logging.Formatter.format`:

    for rbase in self._remove_base:
        record.name = record.name.replace(f"{rbase}.", "")
    record.levelname = record.levelname.lower()
-/
def formatMutate (remove_base : List String) (r : LogRecord) : LogRecord :=
  { r with
    name := remove_base.foldl (fun n rbase => pyRemoveAll (rbase ++ ".") n) r.name,
    levelname := pyLower r.levelname }

/-- `StringFormatter.format(record)` for the default `FORMAT_BASE` template:
returns the record as mutated in place together with the rendered line
produced by the generic template substitution on the mutated fields. -/
def StringFormatter.format (remove_base : List String) (r : LogRecord) :
    LogRecord × String :=
  let r2 := formatMutate remove_base r
  (r2, "[" ++ r2.name ++ "][" ++ r2.levelname ++ "] " ++ r2.message)

/-- Modelled from the spec: the spec's rendering rule for the logger name says
the formatter strips each configured prefix (followed by the `"."` separator)
"only from the start of `record.name`".  This definition follows those words
(for comparison with `formatMutate`, which embeds the source). -/
def specStripFromStart (remove_base : List String) (name : String) : String :=
  remove_base.foldl
    (fun n rbase =>
      if (rbase ++ ".").data.isPrefixOf n.data then
        ⟨n.data.drop (rbase ++ ".").data.length⟩
      else n)
    name

/-! ### `StreamHandler.flush` -/

/-- A Python exception as far as `StreamHandler.flush` distinguishes them:
`OSError` (of which `BrokenPipeError` is a subclass; on Windows a broken pipe
surfaces as a plain `OSError`) versus anything else. -/
inductive PyExc where
  | osError (brokenPipe : Bool)
  | other (name : String)
  deriving DecidableEq, Repr

/-- `StreamHandler.flush`, parameterised by the outcome of the underlying
`logging.StreamHandler.flush()` call: the `except OSError: pass` clause turns
any `OSError` into a normal return, and everything else propagates. -/
def StreamHandler.flush (superFlush : Except PyExc Unit) : Except PyExc Unit :=
  match superFlush with
  | .error (.osError _) => .ok ()
  | .error e => .error e
  | .ok u => .ok u

/-! ### Warning bridge: `WarningLogRecord`, `_log_record_factory`,
`capturewarnings` -/

/-- A warning category (a Python class): its `__name__` and whether it is a
subclass of `streamlink.exceptions.StreamlinkWarning`. -/
structure WarnCategory where
  name : String
  subclassOfStreamlinkWarning : Bool
  deriving DecidableEq, Repr

/-- `warnings.WarningMessage` as used by the bridge: message text, optional
category, originating filename and line number. -/
structure WarningMessage where
  message : String
  category : Option WarnCategory
  filename : String
  lineno : Nat
  deriving DecidableEq, Repr

/-- `pathlib.Path(p).name`: the final path component (after the last `/`). -/
def pathFinalComponent (p : String) : String :=
  ((p.split (· = '/')).getLastD p)

/-- `pathlib.Path(p).stem`: the final component with its last dot-suffix
removed (kept whole when it has no dot-suffix). -/
def pathStem (p : String) : String :=
  let base := (pathFinalComponent p).data
  let rev := base.reverse
  match rev.findIdx? (· = '.') with
  | some i => if i + 1 = rev.length then ⟨base⟩ else ⟨(rev.drop (i + 1)).reverse⟩
  | none => ⟨base⟩

/-- A `WarningLogRecord` after `__init__` has run: `name` is forced to
`"warnings"`, `levelname` is the category's `__name__` (falling back to
`UserWarning.__name__` when the category is `None`), and the source-location
fields are derived from the warning's origin rather than the logging call
site.  The `WarningMessage` is kept as `msg`. -/
structure WarningLogRecord where
  name : String
  levelname : String
  pathname : String
  filename : String
  module : String
  lineno : Nat
  msg : WarningMessage
  deriving DecidableEq, Repr

/-- `WarningLogRecord.__init__` (the field overrides it performs after the
base `LogRecord.__init__`). -/
def WarningLogRecord.make (w : WarningMessage) : WarningLogRecord :=
  { name := "warnings",
    levelname := match w.category with
      | some c => c.name
      | none => "UserWarning",
    pathname := w.filename,
    filename := pathFinalComponent w.filename,
    module := pathStem w.filename,
    lineno := w.lineno,
    msg := w }

/-- `WarningLogRecord.getMessage`:

    if self.msg.category and issubclass(self.msg.category, StreamlinkWarning):
        return f"{self.msg.message}"
    return f"{self.msg.message}\n  {self.pathname}:{self.lineno}"
-/
def WarningLogRecord.getMessage (r : WarningLogRecord) : String :=
  match r.msg.category with
  | some c =>
    if c.subclassOfStreamlinkWarning then
      r.msg.message
    else
      r.msg.message ++ "\n  " ++ r.pathname ++ ":" ++ toString r.lineno
  | none => r.msg.message ++ "\n  " ++ r.pathname ++ ":" ++ toString r.lineno

/-- The `msg` argument reaching the installed record factory: either a
`WarningMessage` payload (sent by `_showwarning`) or an ordinary message. -/
inductive LogMsg where
  | warning (w : WarningMessage)
  | plain (s : String)
  deriving DecidableEq, Repr

/-- The fields of a standard `logging.LogRecord` relevant to the factory:
note the function name `func` and stack info `sinfo` arguments. -/
structure StdLogRecord where
  name : String
  levelno : Nat
  pathname : String
  lineno : Nat
  msg : String
  func : Option String
  sinfo : Option String
  deriving DecidableEq, Repr

/-- `_log_record_factory_default = logging.getLogRecordFactory()` captured
at module import time, i.e. the stock `logging.LogRecord` constructor. -/
def logRecordFactoryDefault (name : String) (level : Nat) (fn : String)
    (lno : Nat) (msg : String) (func : Option String) (sinfo : Option String) :
    StdLogRecord :=
  { name := name, levelno := level, pathname := fn, lineno := lno,
    msg := msg, func := func, sinfo := sinfo }

/-- The record produced by the installed factory: a standard record or a
warning-bridge record. -/
inductive FactoryRecord where
  | std (r : StdLogRecord)
  | warn (r : WarningLogRecord)
  deriving DecidableEq, Repr

/-- `_log_record_factory`: a `WarningMessage` msg is re-materialised as a
`WarningLogRecord`; every other msg is forwarded to the default factory with
`func=None, sinfo=None` (discarding the caller-supplied `func` and `sinfo`). -/
def logRecordFactory (name : String) (level : Nat) (fn : String) (lno : Nat)
    (msg : LogMsg) (_func : Option String) (_sinfo : Option String) :
    FactoryRecord :=
  match msg with
  | .warning w => .warn (WarningLogRecord.make w)
  | .plain s => .std (logRecordFactoryDefault name level fn lno s none none)

/-- A warning-emission hook installable in `warnings.showwarning`: either this
module's `_showwarning` bridge or some externally installed hook
(distinguished by an identifier). -/
inductive WarnHook where
  | bridge
  | external (id : Nat)
  deriving DecidableEq, Repr

/-- The process-wide warning-hook state: the current `warnings.showwarning`
and the module global `_showwarning_default` (the hook remembered while
capture is active; `none` when capture is off). -/
structure WarnState where
  showwarning : WarnHook
  showwarningDefault : Option WarnHook
  deriving DecidableEq, Repr

/-- `capturewarnings(capture)`:

    if capture:
        if _showwarning_default is None:
            _showwarning_default = warnings.showwarning
            warnings.showwarning = _showwarning
    else:
        if _showwarning_default is not None:
            warnings.showwarning = _showwarning_default
            _showwarning_default = None
-/
def capturewarnings (capture : Bool) (s : WarnState) : WarnState :=
  if capture then
    match s.showwarningDefault with
    | none => { showwarning := .bridge, showwarningDefault := some s.showwarning }
    | some _ => s
  else
    match s.showwarningDefault with
    | some h => { showwarning := h, showwarningDefault := none }
    | none => s

/-! ### `basicConfig` -/

/-- The kind of handler `basicConfig` creates: a `logging.FileHandler` (from
`filename` and `filemode`, encoding utf-8) or this module's `StreamHandler`
wrapping a stream (streams distinguished by an identifier). -/
inductive HandlerKind where
  | fileHandler (filename : String) (filemode : String)
  | streamHandler (stream : Nat)
  deriving DecidableEq, Repr

/-- The `StringFormatter` configuration attached by `basicConfig`. -/
structure FormatterConfig where
  fmt : String
  datefmt : String
  remove_base : List String
  deriving DecidableEq, Repr

/-- A handler as `basicConfig` leaves it: its kind plus the formatter set via
`handler.setFormatter(formatter)`. -/
structure Handler where
  kind : HandlerKind
  formatter : Option FormatterConfig
  deriving DecidableEq, Repr

/-- The root logger's mutable state touched by `basicConfig`: its attached
handler list and its level. -/
structure RootLoggerState where
  handlers : List Handler
  level : Nat
  deriving DecidableEq, Repr

/-- All process-wide state `basicConfig` can mutate (under `_config_lock`). -/
structure ConfigState where
  root : RootLoggerState
  warn : WarnState
  deriving DecidableEq, Repr

/-- Python's `x or default` for the `remove_base` argument: `None` and the
empty list are both falsy. -/
def pyOrList (x : Option (List String)) (default : List String) : List String :=
  match x with
  | some l => if l.isEmpty then default else l
  | none => default

/-- `basicConfig(filename=..., filemode=..., format=..., datefmt=..., level=...,
stream=..., remove_base=..., capture_warnings=...)`, run under `_config_lock`.
`level` is modelled as the numeric level the engine resolves the level name
to.  Returns the new state together with the created handler (or `none`).

When a handler was created, the source constructs a `StringFormatter` before
attaching anything; `StringFormatter.__init__` performs construction-time
template validation (the stdlib `Formatter.__init__` template check plus the
render of a synthetic empty record), and a malformed template makes it raise
`ValueError` there — before `handler.setFormatter` and `root.addHandler` run,
so the exception propagates out of `basicConfig` with no handler attached, the
root level unset and warnings uncaptured.  The outcome of that validation for
the given template is modelled by the `formatterValidate` argument, the same
way `StreamHandler.flush` models the outcome of the underlying stream flush
(the generic substitution engine itself is an external collaborator).  The
creation of the `FileHandler`/`StreamHandler` object itself (which opens the
file or reconfigures the stream) is outside the modelled state. -/
def basicConfig (formatterValidate : String → Except PyExc Unit)
    (filename : Option String) (filemode : String) (fmt : String)
    (datefmt : String) (level : Option Nat) (stream : Option Nat)
    (remove_base : Option (List String)) (capture_warnings : Bool)
    (st : ConfigState) : Except PyExc (ConfigState × Option Handler) :=
  let handler : Option Handler :=
    match filename with
    | some f => some { kind := .fileHandler f filemode, formatter := none }
    | none =>
      match stream with
      | some s => some { kind := .streamHandler s, formatter := none }
      | none => none
  match handler with
  | some h =>
    match formatterValidate fmt with
    | .error e => .error e
    | .ok _ =>
      let fconf : FormatterConfig :=
        { fmt := fmt, datefmt := datefmt,
          remove_base := pyOrList remove_base REMOVE_BASE }
      let h2 := { h with formatter := some fconf }
      let st := { st with root := { st.root with handlers := st.root.handlers ++ [h2] } }
      let st :=
        match level with
        | some l => { st with root := { st.root with level := l } }
        | none => st
      let st :=
        if capture_warnings then { st with warn := capturewarnings true st.warn } else st
      .ok (st, some h2)
  | none =>
    let st :=
      match level with
      | some l => { st with root := { st.root with level := l } }
      | none => st
    let st :=
      if capture_warnings then { st with warn := capturewarnings true st.warn } else st
    .ok (st, none)

/-! ### Helper lemmas -/

/-- If `pat` occurs nowhere in `s` (as a contiguous sublist), the removal scan
leaves `s` unchanged, for any amount of fuel. -/
theorem removeOccGo_no_occurrence (pat : List Char) :
    ∀ (fuel : Nat) (s : List Char), ¬ pat <:+: s → removeOccGo pat fuel s = s := by
  intro fuel
  induction fuel with
  | zero =>
    intro s _
    cases s <;> rfl
  | succ f ih =>
    intro s hs
    cases s with
    | nil => rfl
    | cons c rest =>
      have hp : pat.isPrefixOf (c :: rest) = false := by
        cases hcon : pat.isPrefixOf (c :: rest) with
        | false => rfl
        | true =>
          have hpre : pat <+: (c :: rest) := by simpa using hcon
          exact absurd (List.IsPrefix.isInfix hpre) hs
      have hrest : ¬ pat <:+: rest := fun hinf => hs (List.infix_cons hinf)
      simp [removeOccGo, hp, ih rest hrest]

/-- `str.replace(pat, "")` is the identity when `pat` has no occurrence. -/
theorem pyRemoveAll_no_occurrence (pat s : String) (h : ¬ pat.data <:+: s.data) :
    pyRemoveAll pat s = s := by
  cases s with
  | mk data =>
    simp only [pyRemoveAll]
    rw [removeOccGo_no_occurrence pat.data data.length data h]

/-- The prefix-stripping fold of `StringFormatter.format` leaves a name
unchanged when none of the configured patterns occurs in it. -/
theorem stripFold_of_no_occurrence :
    ∀ (bases : List String) (name : String),
      (∀ b ∈ bases, ¬ (b ++ ".").data <:+: name.data) →
      bases.foldl (fun n rbase => pyRemoveAll (rbase ++ ".") n) name = name := by
  intro bases
  induction bases with
  | nil => intro name _; rfl
  | cons b bs ih =>
    intro name h
    have hb : ¬ (b ++ ".").data <:+: name.data := h b (by simp)
    have hrest : ∀ x ∈ bs, ¬ (x ++ ".").data <:+: name.data := fun x hx => h x (by simp [hx])
    simp only [List.foldl_cons, pyRemoveAll_no_occurrence _ _ hb]
    exact ih name hrest

/-! ### Claim theorems -/

/-- Claim C2, counterexample: `levels` is not the ascending list
`["all", "trace", "debug", "info", "warning", "error", "critical", "none"]`
with `"none"` last — `list(dict.values())` iterates the `_levelToNames` dict
in insertion order, which starts at `"none"`. -/
theorem levels_ascending_counterexample :
    levels 2147483647 ≠
      ["all", "trace", "debug", "info", "warning", "error", "critical", "none"] := by
  decide

/-- Claim C2, amended: `levels` equals the lowercase level names in descending
severity order, `["none", "critical", "error", "warning", "info", "debug",
"trace", "all"]`, with `"none"` first (the `_levelToNames` insertion order). -/
theorem levels_descending_order (maxsize : Nat) :
    levels maxsize =
      ["none", "critical", "error", "warning", "info", "debug", "trace", "all"] := rfl

/-- Claim C3: when the logger's level filter rejects `level`, the `iter`
generator yields every input item unchanged and in original order, passes
nothing to `self._log`, and evaluates `isEnabledFor` exactly once. -/
theorem iter_disabled_passthrough {α : Type} (isEnabledFor : Nat → Bool)
    (level : Nat) (messages : List α) (h : isEnabledFor level = false) :
    StreamlinkLogger.iter isEnabledFor level messages =
      { yielded := messages, records := [], enabledChecks := 1 } := by
  simp [StreamlinkLogger.iter, h]

/-- Claim C3, witness: a logger whose filter rejects everything passes
`["a", "b", "c"]` through unchanged with no records and one check. -/
theorem iter_disabled_passthrough_witness :
    StreamlinkLogger.iter (fun _ => false) DEBUG ["a", "b", "c"] =
      { yielded := ["a", "b", "c"], records := [], enabledChecks := 1 } :=
  iter_disabled_passthrough (fun _ => false) DEBUG ["a", "b", "c"] rfl

/-- Claim C6: the eight registered level values satisfy the strict chain
`all < trace < debug < info < warning < error < critical < none`, and the
sentinel `none` value (`sys.maxsize`, which Python guarantees is at least
`2^31 - 1`) is strictly greater than every other registered level's value. -/
theorem level_values_strict_total_order (maxsize : Nat)
    (h : 2147483647 ≤ maxsize) :
    (ALL < TRACE ∧ TRACE < DEBUG ∧ DEBUG < INFO ∧ INFO < WARNING ∧
      WARNING < ERROR ∧ ERROR < CRITICAL ∧ CRITICAL < NONE maxsize) ∧
    (∀ p ∈ levelToNames maxsize, p.2 ≠ "none" → p.1 < NONE maxsize) := by
  refine ⟨⟨by decide, by decide, by decide, by decide, by decide, by decide, ?_⟩, ?_⟩
  · simp only [CRITICAL, NONE]
    omega
  · intro p hp hne
    simp only [levelToNames, List.mem_cons, List.not_mem_nil, or_false] at hp
    rcases hp with h1 | h1 | h1 | h1 | h1 | h1 | h1 | h1 <;> subst h1
    · exact absurd rfl hne
    all_goals
      simp only [NONE, CRITICAL, ERROR, WARNING, INFO, DEBUG, TRACE, ALL]
      omega

/-- Claim C6, witness: the order holds at the concrete 32-bit `sys.maxsize`. -/
theorem level_values_strict_total_order_witness :
    (ALL < TRACE ∧ TRACE < DEBUG ∧ DEBUG < INFO ∧ INFO < WARNING ∧
      WARNING < ERROR ∧ ERROR < CRITICAL ∧ CRITICAL < NONE 2147483647) ∧
    (∀ p ∈ levelToNames 2147483647, p.2 ≠ "none" → p.1 < NONE 2147483647) :=
  level_values_strict_total_order 2147483647 (Nat.le_refl _)

/-- Claim C9: any `OSError` raised by the underlying stream flush (broken
pipe or not) is caught by `StreamHandler.flush`, which returns normally. -/
theorem streamHandler_flush_swallows_os_errors (brokenPipe : Bool) :
    StreamHandler.flush (Except.error (PyExc.osError brokenPipe)) =
      Except.ok () := rfl

/-- Claim C10: for a non-warning message the installed record factory forwards
to the default factory with `func=None` and `sinfo=None`, discarding the
caller-supplied values, so the resulting record has no function name and no
stack info. -/
theorem logRecordFactory_forces_func_sinfo_none (name : String) (level : Nat)
    (fn : String) (lno : Nat) (s : String) (func sinfo : Option String) :
    logRecordFactory name level fn lno (LogMsg.plain s) func sinfo =
      FactoryRecord.std (logRecordFactoryDefault name level fn lno s none none) ∧
    (logRecordFactoryDefault name level fn lno s none none).func = none ∧
    (logRecordFactoryDefault name level fn lno s none none).sinfo = none :=
  ⟨rfl, rfl, rfl⟩

/-- Claim C1, counterexample: starting from a root logger with no handlers,
two successive `basicConfig` calls that each supply a stream target leave two
handlers attached to the root logger, not one — `root.addHandler(handler)` is
called unconditionally on every call that creates a handler.  Both calls use
the default template `FORMAT_BASE`, whose construction-time validation
succeeds in the source (it references only the record fields `name`,
`levelname` and `message`), so the validation outcome is `Except.ok ()`. -/
theorem basicConfig_repeated_stream_calls_counterexample :
    (basicConfig (fun _ => Except.ok ()) none "a" FORMAT_BASE FORMAT_DATE none
        (some 0) none false
        { root := { handlers := [], level := WARNING },
          warn := { showwarning := WarnHook.external 0,
                    showwarningDefault := none } }
      = Except.ok
          ({ root :=
              { handlers :=
                  [{ kind := HandlerKind.streamHandler 0,
                     formatter := some
                       { fmt := FORMAT_BASE, datefmt := FORMAT_DATE,
                         remove_base := REMOVE_BASE } }],
                level := WARNING },
             warn := { showwarning := WarnHook.external 0,
                       showwarningDefault := none } },
           some { kind := HandlerKind.streamHandler 0,
                  formatter := some
                    { fmt := FORMAT_BASE, datefmt := FORMAT_DATE,
                      remove_base := REMOVE_BASE } })) ∧
    ((basicConfig (fun _ => Except.ok ()) none "a" FORMAT_BASE FORMAT_DATE none
        (some 1) none false
        { root :=
            { handlers :=
                [{ kind := HandlerKind.streamHandler 0,
                   formatter := some
                     { fmt := FORMAT_BASE, datefmt := FORMAT_DATE,
                       remove_base := REMOVE_BASE } }],
              level := WARNING },
          warn := { showwarning := WarnHook.external 0,
                    showwarningDefault := none } }).map
        (fun p => p.fst.root.handlers.length)
      = Except.ok 2) ∧
    (2 : Nat) ≠ 1 :=
  ⟨rfl, rfl, by decide⟩

/-- Claim C1, amended: `basicConfig` never deduplicates: whenever the
formatter's construction-time template validation succeeds (as it does for
the default template), a call that supplies a stream target appends exactly
one new handler to the root logger's handler list — so repeated calls
accumulate handlers, and after two successive stream-target calls two
handlers are attached, not one; when the validation raises, the error
propagates out of `basicConfig` and no handler is attached (the state is
returned unchanged only on success, never partially). -/
theorem basicConfig_stream_appends_one_handler
    (v : String → Except PyExc Unit) (st : ConfigState)
    (filemode fmt datefmt : String) (level : Option Nat) (stream : Nat)
    (remove_base : Option (List String)) (cw : Bool) :
    (v fmt = Except.ok () →
      (basicConfig v none filemode fmt datefmt level (some stream) remove_base
          cw st).map (fun p => (p.fst.root.handlers, p.snd))
        = Except.ok
            (st.root.handlers ++
              [{ kind := HandlerKind.streamHandler stream,
                 formatter := some
                   { fmt := fmt, datefmt := datefmt,
                     remove_base := pyOrList remove_base REMOVE_BASE } }],
             some { kind := HandlerKind.streamHandler stream,
                    formatter := some
                      { fmt := fmt, datefmt := datefmt,
                        remove_base := pyOrList remove_base REMOVE_BASE } })) ∧
    (∀ e, v fmt = Except.error e →
      basicConfig v none filemode fmt datefmt level (some stream) remove_base
          cw st
        = Except.error e) := by
  constructor
  · intro hv
    cases level <;> cases cw <;> simp [basicConfig, hv, Except.map]
  · intro e he
    cases level <;> cases cw <;> simp [basicConfig, he]

/-- Claim C1, witness: with the successful validation outcome of the default
template, a stream-target call from the empty-handler state attaches exactly
the one new stream handler; with a failing validation outcome (as a malformed
template such as `"{unknown}"` produces in the source), the same call raises
`ValueError` and attaches nothing. -/
theorem basicConfig_stream_appends_one_handler_witness :
    ((basicConfig (fun _ => (Except.ok () : Except PyExc Unit)) none "a"
        FORMAT_BASE FORMAT_DATE none (some 5) none false
        { root := { handlers := [], level := WARNING },
          warn := { showwarning := WarnHook.external 0,
                    showwarningDefault := none } }).map
        (fun p => (p.fst.root.handlers, p.snd))
      = Except.ok
          ([{ kind := HandlerKind.streamHandler 5,
              formatter := some
                { fmt := FORMAT_BASE, datefmt := FORMAT_DATE,
                  remove_base := REMOVE_BASE } }],
           some { kind := HandlerKind.streamHandler 5,
                  formatter := some
                    { fmt := FORMAT_BASE, datefmt := FORMAT_DATE,
                      remove_base := REMOVE_BASE } })) ∧
    (basicConfig (fun _ => (Except.error (PyExc.other "ValueError") :
          Except PyExc Unit)) none "a" "{unknown}" FORMAT_DATE none (some 5)
        none false
        { root := { handlers := [], level := WARNING },
          warn := { showwarning := WarnHook.external 0,
                    showwarningDefault := none } }
      = Except.error (PyExc.other "ValueError")) :=
  ⟨(basicConfig_stream_appends_one_handler _ _ _ _ _ _ _ _ _).1 rfl,
   (basicConfig_stream_appends_one_handler _ _ _ _ _ _ _ _ _).2
     (PyExc.other "ValueError") rfl⟩

/-- Claim C4, counterexample: rendering is not field-preserving — formatting a
record whose name is `"streamlink.plugin.foo"` and whose levelname is
`"DEBUG"` changes the record (its name becomes `"plugin.foo"` and its
levelname `"debug"`). -/
theorem format_record_mutation_counterexample :
    (StringFormatter.format REMOVE_BASE
        { name := "streamlink.plugin.foo", levelname := "DEBUG",
          message := "m" }).fst ≠
      { name := "streamlink.plugin.foo", levelname := "DEBUG", message := "m" } := by
  decide

/-- Claim C4, amended: rendering mutates the record in place — `record.name`
is overwritten with its prefix-stripped form and `record.levelname` with its
lowercased form — while the message field is left unchanged; a second render
of the same record observes the mutated values (for the example record, the
stripped name `"plugin.foo"`), not the originals. -/
theorem format_mutates_name_levelname_frame (remove_base : List String)
    (r : LogRecord) :
    ((StringFormatter.format remove_base r).fst =
      { name := remove_base.foldl (fun n rbase => pyRemoveAll (rbase ++ ".") n) r.name,
        levelname := pyLower r.levelname,
        message := r.message }) ∧
    ((StringFormatter.format REMOVE_BASE
        (StringFormatter.format REMOVE_BASE
          { name := "streamlink.plugin.foo", levelname := "DEBUG",
            message := "m" }).fst).fst.name = "plugin.foo") :=
  ⟨rfl, rfl⟩

/-- Claim C5, counterexample: the prefix removal is not limited to the start
of `record.name` — on the name `"foo.streamlink.bar"`, where `"streamlink."`
occurs only in the middle, the render still removes it (producing
`"foo.bar"`), whereas the spec's start-only rule would leave the name
unchanged. -/
theorem format_strip_start_only_counterexample :
    ((StringFormatter.format ["streamlink"]
        { name := "foo.streamlink.bar", levelname := "INFO",
          message := "m" }).fst.name = "foo.bar") ∧
    (specStripFromStart ["streamlink"] "foo.streamlink.bar" = "foo.streamlink.bar") ∧
    (("foo.bar" : String) ≠ "foo.streamlink.bar") :=
  ⟨rfl, rfl, by decide⟩

/-- Claim C5, amended: the render removes every occurrence of each configured
prefix followed by `"."` anywhere in `record.name` (a left-to-right
non-overlapping scan, not only at the start) and forces `record.levelname` to
lowercase; a name in which no configured prefix occurs is left unchanged, and
prefixes `["streamlink"]` render `"streamlink.plugin.foo"` as `"plugin.foo"`
and `"foo.streamlink.bar"` as `"foo.bar"`. -/
theorem format_strips_occurrences_anywhere (bases : List String) (r : LogRecord)
    (h : ∀ b ∈ bases, ¬ (b ++ ".").data <:+: r.name.data) :
    ((StringFormatter.format bases r).fst.name = r.name) ∧
    ((StringFormatter.format bases r).fst.levelname = pyLower r.levelname) ∧
    ((StringFormatter.format ["streamlink"]
        { name := "streamlink.plugin.foo", levelname := "DEBUG",
          message := "m" }).fst.name = "plugin.foo") ∧
    ((StringFormatter.format ["streamlink"]
        { name := "foo.streamlink.bar", levelname := "INFO",
          message := "m" }).fst.name = "foo.bar") := by
  refine ⟨?_, rfl, rfl, rfl⟩
  show bases.foldl (fun n rbase => pyRemoveAll (rbase ++ ".") n) r.name = r.name
  exact stripFold_of_no_occurrence bases r.name h

/-- Claim C5, witness: at the prefix list `["streamlink"]` and a record named
`"plugin.foo"` (no occurrence of `"streamlink."`), the render keeps the name
and lowercases the levelname, and the two concrete stripping examples hold. -/
theorem format_strips_occurrences_anywhere_witness :
    ((StringFormatter.format ["streamlink"]
        { name := "plugin.foo", levelname := "DEBUG", message := "m" }).fst.name
      = "plugin.foo") ∧
    ((StringFormatter.format ["streamlink"]
        { name := "plugin.foo", levelname := "DEBUG", message := "m" }).fst.levelname
      = pyLower "DEBUG") ∧
    ((StringFormatter.format ["streamlink"]
        { name := "streamlink.plugin.foo", levelname := "DEBUG",
          message := "m" }).fst.name = "plugin.foo") ∧
    ((StringFormatter.format ["streamlink"]
        { name := "foo.streamlink.bar", levelname := "INFO",
          message := "m" }).fst.name = "foo.bar") :=
  format_strips_occurrences_anywhere ["streamlink"]
    { name := "plugin.foo", levelname := "DEBUG", message := "m" } (by decide)

/-- Claim C7: `capturewarnings` is idempotent per state transition — enabling
when already enabled and disabling when already disabled are no-ops — and
after enabling twice in a row a single disable restores exactly the
warning-emission hook that was installed before the first enable. -/
theorem capturewarnings_idempotent_and_restores (s : WarnState) :
    capturewarnings true (capturewarnings true s) = capturewarnings true s ∧
    capturewarnings false (capturewarnings false s) = capturewarnings false s ∧
    (s.showwarningDefault = none →
      capturewarnings false (capturewarnings true (capturewarnings true s)) = s) := by
  obtain ⟨sw, sd⟩ := s
  cases sd <;> simp [capturewarnings]

/-- Claim C7, witness: from a disabled state whose hook is the external hook
number 7, enable–enable–disable restores that exact state. -/
theorem capturewarnings_idempotent_and_restores_witness :
    (({ showwarning := WarnHook.external 7, showwarningDefault := none } :
        WarnState).showwarningDefault = none) ∧
    capturewarnings false (capturewarnings true (capturewarnings true
        { showwarning := WarnHook.external 7, showwarningDefault := none })) =
      { showwarning := WarnHook.external 7, showwarningDefault := none } :=
  ⟨rfl,
    (capturewarnings_idempotent_and_restores
      { showwarning := WarnHook.external 7, showwarningDefault := none }).2.2 rfl⟩

/-- Claim C8: a Warning Record whose category is a `StreamlinkWarning`
subclass renders the warning text alone; any other category renders the text
plus a continuation line with the originating file path and line number; and
a category-less warning is rendered by the same total rule (no failure) with
the levelname falling back to `"UserWarning"`. -/
theorem warningLogRecord_render_rule (w : WarningMessage) :
    (∀ c, w.category = some c → c.subclassOfStreamlinkWarning = true →
      (WarningLogRecord.make w).getMessage = w.message) ∧
    (∀ c, w.category = some c → c.subclassOfStreamlinkWarning = false →
      (WarningLogRecord.make w).getMessage =
        w.message ++ "\n  " ++ w.filename ++ ":" ++ toString w.lineno) ∧
    (w.category = none →
      (WarningLogRecord.make w).getMessage =
        w.message ++ "\n  " ++ w.filename ++ ":" ++ toString w.lineno ∧
      (WarningLogRecord.make w).levelname = "UserWarning") := by
  refine ⟨?_, ?_, ?_⟩
  · intro c hc hsub
    simp [WarningLogRecord.getMessage, WarningLogRecord.make, hc, hsub]
  · intro c hc hsub
    simp [WarningLogRecord.getMessage, WarningLogRecord.make, hc, hsub]
  · intro hc
    exact ⟨by simp [WarningLogRecord.getMessage, WarningLogRecord.make, hc],
      by simp [WarningLogRecord.make, hc]⟩

/-- Claim C8, witness: a category-less warning from `/a/b.py` line 3 renders
with the continuation line and gets levelname `"UserWarning"`. -/
theorem warningLogRecord_render_rule_witness :
    ((WarningLogRecord.make
        { message := "boom", category := none, filename := "/a/b.py",
          lineno := 3 }).getMessage =
      "boom" ++ "\n  " ++ "/a/b.py" ++ ":" ++ toString (3 : Nat)) ∧
    ((WarningLogRecord.make
        { message := "boom", category := none, filename := "/a/b.py",
          lineno := 3 }).levelname = "UserWarning") :=
  (warningLogRecord_render_rule
    { message := "boom", category := none, filename := "/a/b.py",
      lineno := 3 }).2.2 rfl

end StreamlinkLogging
